import Mathlib

/-!
# Verification of the taptap observer against its specification

This development gives a shallow embedding of the parts of the taptap
repository (a passive observer for a controller-to-gateway serial network)
that the specification claims refer to, and proves or refutes each claim.

Bytes are modelled as `Nat` values below 256, maps (`BTreeMap` in the source)
as association lists, and fallible operations as `Option`/`Except`.
Modules of the repository that are not part of the provided source tree
(`gateway/link/crc.rs`, `gateway/link/escaping.rs`, `gateway/link/address.rs`,
`observer/slot_clock.rs`, `observer/node_table.rs`, `observer/event.rs`,
`barcode.rs`) are modelled from the specification, as marked on each
definition.
-/

namespace Taptap

/-! ## Link layer: escaping, CRC, addresses, frame encoding (src/gateway/link.rs) -/

/-- Modelled from the spec: `src/gateway/link/escaping.rs` is not in the source
tree. Section 4.1 fixes the escape transformation (`0x7E` is the escape byte and
`7E NN` encodes `NN XOR 0x20`), and the conformance vector of section 8.1
additionally forces the byte `0x25` to be escaped on encode (it appears on the
wire as `7E 05`). The set of escaped bytes is therefore fixed here to the bytes
the prose and the vector determine; the encoding theorem only exercises these. -/
def needsEscape (b : Nat) : Bool :=
  b == 0x7E || b == 0x25

/-- Modelled from the spec (section 4.1): escape a body byte-by-byte, emitting
`7E (b XOR 20)` for each byte that needs escaping and the byte itself
otherwise. -/
def escape (body : List Nat) : List Nat :=
  body.foldr (fun b acc => (if needsEscape b then [0x7E, b ^^^ 0x20] else [b]) ++ acc) []

/-- One shift-and-conditionally-xor step of a most-significant-bit-first
16-bit cyclic redundancy check with polynomial `0x1021`. -/
def crcStepBit (c : Nat) : Nat :=
  if c &&& 0x8000 ≠ 0 then ((c <<< 1) ^^^ 0x1021) &&& 0xFFFF else (c <<< 1) &&& 0xFFFF

/-- Fold one input byte into the running CRC value (eight bit steps). -/
def crcByte (c b : Nat) : Nat :=
  (crcStepBit ∘ crcStepBit ∘ crcStepBit ∘ crcStepBit ∘
   crcStepBit ∘ crcStepBit ∘ crcStepBit ∘ crcStepBit) (c ^^^ ((b &&& 0xFF) <<< 8))

/-- Modelled from the spec: `src/gateway/link/crc.rs` is not in the source
tree. Section 4.2 fixes only that this is a 16-bit CRC over the unescaped
`address, type, payload` body, stored little-endian, and section 9 states that
the exact polynomial, initial value and reflection "are defined only by the
`frame_encoding` test vector; implementers must match that vector bit-exactly".
This instance (most-significant-bit-first, polynomial `0x1021`, initial value
`0x63D1`, no reflection, no output xor) matches the section 8.1 conformance
vector bit-exactly. -/
def crc (data : List Nat) : Nat :=
  data.foldl crcByte 0x63D1

/-- An `Address`: a direction tag (`From` the gateway, or `To` it) together with a
gateway identifier (src/gateway/link/address.rs, declared by src/gateway/link.rs). -/
inductive Address
  | From (gatewayId : Nat)
  | To (gatewayId : Nat)
deriving DecidableEq

/-- Modelled from the spec: `src/gateway/link/address.rs` is not in the source
tree. Section 3 fixes the address as two bytes from which direction is not
recovered (it comes from the preamble), and the section 8.1 vector fixes the
wire form of `From(0x1201)` as `92 01`, i.e. the 14-bit gateway identifier with
the top bit set, big-endian. Both directions therefore encode identically. -/
def Address.toBytes : Address → List Nat
  | .From g => [((0x8000 ||| g) >>> 8) &&& 0xFF, (0x8000 ||| g) &&& 0xFF]
  | .To g => [((0x8000 ||| g) >>> 8) &&& 0xFF, (0x8000 ||| g) &&& 0xFF]

/-- A gateway link layer frame (src/gateway/link.rs, `Frame`). The frame type
is a 16-bit value (`Type(pub u16)`). -/
structure Frame where
  address : Address
  frame_type : Nat
  payload : List Nat
deriving DecidableEq

/-- Mirrors `Frame::encode` (src/gateway/link.rs lines 25-55): preamble chosen by
direction, then the escaped body `address(2), type(2, big-endian), payload,
crc(2, little-endian)`, then the `7E 08` trailer. -/
def Frame.encode (f : Frame) : List Nat :=
  let start := match f.address with
    | .From _ => [0xFF, 0x7E, 0x07]
    | .To _ => [0x00, 0xFF, 0xFF, 0x7E, 0x07]
  let trailer := [0x7E, 0x08]
  let body := f.address.toBytes ++ [(f.frame_type >>> 8) &&& 0xFF, f.frame_type &&& 0xFF]
    ++ f.payload
  let c := crc body
  start ++ escape (body ++ [c &&& 0xFF, (c >>> 8) &&& 0xFF]) ++ trailer

/-! ## Maps

The source keeps its tables in `std::collections::BTreeMap`. We model a map as
an association list with unique keys; `insert` replaces the value of an
existing key in place and otherwise appends in sorted position, mirroring the
ordered-map semantics the observer relies on. -/

/-- An ordered map keyed by `Nat`, modelling `BTreeMap` from the source. -/
abbrev Map (V : Type) : Type := List (Nat × V)

/-- Mirrors `BTreeMap::get`. -/
def Map.lookup {V : Type} : Map V → Nat → Option V
  | [], _ => none
  | (k, v) :: rest, g => if g = k then some v else Map.lookup rest g

/-- Mirrors `BTreeMap::insert`: replace the value of an existing key, otherwise insert
in key order. -/
def Map.insert {V : Type} : Map V → Nat → V → Map V
  | [], k, v => [(k, v)]
  | (k', v') :: rest, k, v =>
    if k < k' then (k, v) :: (k', v') :: rest
    else if k = k' then (k, v) :: rest
    else (k', v') :: Map.insert rest k v

/-- Mirrors `BTreeMap::remove` (the removed value, when present, is read separately
with `Map.lookup`). -/
def Map.erase {V : Type} : Map V → Nat → Map V
  | [], _ => []
  | (k', v') :: rest, k => if k = k' then rest else (k', v') :: Map.erase rest k

/-- The key list of a map, in iteration order. -/
def Map.keys {V : Type} (m : Map V) : List Nat := m.map Prod.fst

/-- Transform every value of a map, giving the transformation access to the
key; models `iter().map(|(k, v)| (k, f(k, v))).collect()` over a `BTreeMap`. -/
def Map.mapWithKey {V W : Type} (f : Nat → V → W) (m : Map V) : Map W :=
  m.map (fun p => (p.1, f p.1 p.2))

/-! ## Value types (src/pv, src/barcode.rs) -/

/-- A `LongAddress`: an 8-byte stable hardware identifier (`LongAddress(pub [u8; 8])`);
the fixed-size array is modelled as a byte list. -/
structure LongAddress where
  bytes : List Nat
deriving DecidableEq

/-- The character for one hexadecimal digit, upper-case. -/
def hexDigitChar (n : Nat) : Char :=
  if n < 10 then Char.ofNat (48 + n) else Char.ofNat (55 + n)

/-- Mirrors `format!("{:02X}", b)`: two upper-case hexadecimal digits. -/
def byteHex (b : Nat) : String :=
  String.mk [hexDigitChar (b / 16 % 16), hexDigitChar (b % 16)]

/-- The `XX:XX:XX:XX:XX:XX:XX:XX` rendering of a `LongAddress`
(src/observer/persistent_state.rs lines 52-62: indexes bytes 0 through 7). -/
def longAddressHex (a : LongAddress) : String :=
  String.intercalate ":" ((List.range 8).map (fun i => byteHex (a.bytes.getD i 0)))

/-- Modelled from the spec: `src/barcode.rs` is not in the source tree.
Section 3 fixes only that a barcode is a printable string derived
deterministically from a `LongAddress`. -/
def barcodeOf (a : LongAddress) : String :=
  String.intercalate "" (a.bytes.map byteHex)

/-! ## Persistent state and the infrastructure event
(src/observer/persistent_state.rs) -/

/-- A node table: `NodeID -> LongAddress` (src/observer/node_table.rs declares
the type; only its map content matters here). -/
abbrev NodeTable : Type := Map LongAddress

/-- Mirrors `PersistentState` (src/observer/persistent_state.rs lines 14-19). -/
structure PersistentState where
  gateway_node_tables : Map NodeTable
  gateway_identities : Map LongAddress
  gateway_versions : Map String
deriving DecidableEq

/-- The empty `PersistentState` (`PersistentState::default()`). -/
def PersistentState.empty : PersistentState :=
  { gateway_node_tables := [], gateway_identities := [], gateway_versions := [] }

/-- One entry of the `gateways` map of an infrastructure report
(src/observer/persistent_state.rs lines 21-25). -/
structure PersistentStateEventGateway where
  address : String
  version : String
deriving DecidableEq

/-- One entry of the `nodes` map of an infrastructure report
(src/observer/persistent_state.rs lines 27-31). -/
structure PersistentStateEventNode where
  address : String
  barcode : String
deriving DecidableEq

/-- Mirrors `PersistentStateEvent` (src/observer/persistent_state.rs lines 33-38): the
JSON shape of an `infrastructure_report`. -/
structure PersistentStateEvent where
  event_type : String
  gateways : Map PersistentStateEventGateway
  nodes : Map (Map PersistentStateEventNode)
deriving DecidableEq

/-- Mirrors `impl From<&PersistentState> for PersistentStateEvent`
(src/observer/persistent_state.rs lines 40-106): the `gateways` map is built
from `gateway_identities`, looking the version up in `gateway_versions` with
`unwrap_or_default()`; the `nodes` map is built from `gateway_node_tables`. -/
def persistentStateEvent (st : PersistentState) : PersistentStateEvent :=
  { event_type := "infrastructure_report"
    gateways := Map.mapWithKey
      (fun g a =>
        { address := longAddressHex a
          version := (st.gateway_versions.lookup g).getD "" })
      st.gateway_identities
    nodes := Map.mapWithKey
      (fun _ table =>
        Map.mapWithKey (fun _ a => { address := longAddressHex a, barcode := barcodeOf a }) table)
      st.gateway_node_tables }

/-! ## The observer (src/observer.rs)

The outputs of the observer are JSON lines printed to standard output
(`infrastructure_report` and `power_report` events) and log records. Both are
collected in a single `Output` list, in emission order, so that claims about
"exactly one event emitted" can count constructors. -/

/-- A log severity (the `log` crate levels used by the source). -/
inductive LogLevel
  | debug
  | info
  | warn
  | error
deriving DecidableEq

/-- Modelled from the spec: `src/pv/application.rs` is not in the source tree.
Section 4.3 fixes the `PowerReport` fields; their values are opaque to every
claim settled here. -/
structure PowerReport where
  slot_counter : Nat
  power : Nat
  energy : Nat
  voltage : Nat
  current : Nat
  flags : Nat
deriving DecidableEq

/-- Modelled from the spec: `src/observer/slot_clock.rs` is not in the source
tree. Section 4.4 fixes a `SlotClock` as a small value anchoring a slot-counter
sample to a wall-clock instant; only its presence in the observer table
`slot_clocks` table matters to the claims settled here. -/
structure SlotClock where
  anchor_counter : Nat
  anchor_time : Nat
deriving DecidableEq

/-- The shape of an emitted `power_report` JSON event (section 6; built by
`event::PowerReportEvent::new` in src/observer/event.rs, which is not in the
source tree). The RFC3339 timestamp is modelled as a wall-time number. -/
structure PowerReportEvent where
  gateway : Nat
  node : Nat
  timestamp : Nat
  power : Nat
  energy : Nat
  voltage : Nat
  current : Nat
  flags : Nat
deriving DecidableEq

/-- One observer output: an `infrastructure_report` JSON line, a
`power_report` JSON line (both on standard output), or a log record. -/
inductive Output
  | infrastructureReport (e : PersistentStateEvent)
  | powerReport (e : PowerReportEvent)
  | log (level : LogLevel) (message : String)
deriving DecidableEq

/-- The number of `infrastructure_report` events in an output list. -/
def countInfra : List Output → Nat
  | [] => 0
  | .infrastructureReport _ :: rest => countInfra rest + 1
  | _ :: rest => countInfra rest

/-- The number of `power_report` events in an output list. -/
def countPower : List Output → Nat
  | [] => 0
  | .powerReport _ :: rest => countPower rest + 1
  | _ :: rest => countPower rest

/-- Whether an output list contains a warning-level log record. -/
def hasWarnLog : List Output → Bool
  | [] => false
  | .log .warn _ :: _ => true
  | _ :: rest => hasWarnLog rest

/-- The outcome of one attempt to persist state to disk
(`Observer::write_persistent_state` opens, writes, flushes and renames a
temporary file; each step can fail and each failure aborts the attempt). An
empty persistence path always fails at the create step, because
`File::create("")` cannot succeed. -/
inductive FsOutcome
  | success
  | createFail
  | writeFail
  | flushFail
  | renameFail
deriving DecidableEq

/-- The `NodeTableBuilder` (src/observer/node_table.rs, not in the source tree).
Modelled from the spec, section 4.5: it buffers pages keyed by start address;
its `push` behaviour is a parameter of the environment below, so every
observer-level theorem holds for each behaviour the builder may have. -/
structure NodeTableBuilder where
  pages : Map (List (Nat × LongAddress))
deriving DecidableEq

/-- The empty builder (`NodeTableBuilder::default()`, reached through
`entry(gateway_id).or_default()`). -/
def NodeTableBuilder.empty : NodeTableBuilder := { pages := [] }

/-- The environment of the observer: the behaviour of the modules that are not
in the provided source tree, and of the filesystem.

* `fs` — the outcome of a persistence attempt (the behaviour of the filesystem).
* `slotClockNew` — `SlotClock::new(counter, time)`, `none` on error
  (src/observer/slot_clock.rs, modelled from spec section 4.4).
* `slotClockSet` — `SlotClock::set(counter, time)`, `none` on error, in which
  case the stored clock is kept (the source discards the error with `.ok()`).
* `builderPush` — `NodeTableBuilder::push(start_address, nodes)`: the updated
  builder and the completed table, if any (src/observer/node_table.rs,
  modelled from spec section 4.5).
* `mkPowerReportEvent` — `event::PowerReportEvent::new(gateway, node, clock,
  report)`, `none` when the slot counter is invalid for the clock
  (src/observer/event.rs, modelled from spec sections 4.4 and 4.6).

Each observer theorem quantifies over the environment, so it holds for every
behaviour of these collaborators. -/
structure Env where
  fs : FsOutcome
  slotClockNew : Nat → Nat → Option SlotClock
  slotClockSet : SlotClock → Nat → Nat → Option SlotClock
  builderPush : NodeTableBuilder → Nat → List (Nat × LongAddress) →
    NodeTableBuilder × Option NodeTable
  mkPowerReportEvent : Nat → Nat → SlotClock → PowerReport → Option PowerReportEvent

/-- Mirrors `EnumerationState` (src/observer.rs lines 352-357): the shadow of the
persistent gateway tables maintained during an enumeration cycle. -/
structure EnumerationState where
  enumeration_gateway_id : Nat
  gateway_identities : Map LongAddress
  gateway_versions : Map String
deriving DecidableEq

/-- Mirrors `EnumerationState::gateway_identity_observed` (src/observer.rs lines
359-371): an identity for the transient enumeration gateway identifier is
discarded; every other identity is stored in the shadow. -/
def EnumerationState.gateway_identity_observed
    (es : EnumerationState) (gateway : Nat) (address : LongAddress) : EnumerationState :=
  if gateway = es.enumeration_gateway_id then es
  else { es with gateway_identities := es.gateway_identities.insert gateway address }

/-- Mirrors `Observer` (src/observer.rs lines 44-52). Wall-clock times are numbers. -/
structure Observer where
  persistent_file : String
  persistent_state : PersistentState
  enumeration_state : Option EnumerationState
  captured_slot_counters : Map Nat
  slot_clocks : Map SlotClock
  node_table_builders : Map NodeTableBuilder
deriving DecidableEq

/-- Mirrors `Observer::write_persistent_state` (src/observer.rs lines 115-186): the
infrastructure event is printed first, unconditionally; then the state is
serialized (infallible for this data) and written to a temporary file which is
flushed and renamed into place, each step logging an error and aborting on
failure; after a successful rename the same infrastructure event is printed a
second time and a debug record is logged. -/
def Observer.write_persistent_state (env : Env) (s : Observer) : List Output :=
  Output.infrastructureReport (persistentStateEvent s.persistent_state) ::
  match env.fs with
  | .createFail => [.log .error "failed to create temporary file"]
  | .writeFail => [.log .error "failed to write data to temporary file"]
  | .flushFail => [.log .error "failed to flush temporary file"]
  | .renameFail => [.log .error "failed to rename temporary file"]
  | .success =>
    [.infrastructureReport (persistentStateEvent s.persistent_state),
     .log .debug "successfully wrote persistent state"]

/-- What the configured persistence file holds at startup: it is absent, it
exists but opening, reading or JSON-parsing it fails, or it parses to a
persistent state. -/
inductive FileOutcome
  | absent
  | unreadable
  | parsed (st : PersistentState)
deriving DecidableEq

/-- Mirrors `Observer::read_persistent_state` (src/observer.rs lines 77-110): an empty
path, a missing file, and a read or parse failure each keep the current state
(logging at info, info and warn level respectively); a successfully parsed
file replaces the state and prints one infrastructure event. -/
def Observer.read_persistent_state (file : FileOutcome) (s : Observer) :
    Observer × List Output :=
  if s.persistent_file = "" then
    (s, [.log .info "persistent file is not specified"])
  else
    match file with
    | .absent => (s, [.log .info "persistent file not found, starting with empty state"])
    | .unreadable => (s, [.log .warn "failed to read persistent state"])
    | .parsed data =>
      let s := { s with persistent_state := data }
      (s, [.infrastructureReport (persistentStateEvent s.persistent_state)])

/-- Mirrors `Observer::new` (src/observer.rs lines 61-72): build the observer with
empty state, then restore from the persistence file. -/
def Observer.new (persistent_file : String) (file : FileOutcome) :
    Observer × List Output :=
  Observer.read_persistent_state file
    { persistent_file := persistent_file
      persistent_state := PersistentState.empty
      enumeration_state := none
      captured_slot_counters := []
      slot_clocks := []
      node_table_builders := [] }

/-- A call delivered to the observer through its sink traits
(`gateway::transport::Sink` and `pv::application::Sink`, src/observer.rs lines
193-350). `SystemTime::now()` at a slot-counter capture is modelled by the
time carried on the event. Constructors whose payloads the observer ignores
carry only the gateway identifier. -/
inductive SinkEvent
  | enumerationStarted (gateway : Nat)
  | gatewayIdentityObserved (gateway : Nat) (address : LongAddress)
  | gatewayVersionObserved (gateway : Nat) (version : String)
  | enumerationEnded (gateway : Nat)
  | gatewaySlotCounterCaptured (gateway : Nat) (now : Nat)
  | gatewaySlotCounterObserved (gateway : Nat) (counter : Nat)
  | packetReceived (gateway : Nat)
  | commandExecuted (gateway : Nat)
  | stringRequest (gateway : Nat)
  | stringResponse (gateway : Nat)
  | nodeTablePage (gateway : Nat) (start_address : Nat) (nodes : List (Nat × LongAddress))
  | topologyReport (gateway : Nat)
  | powerReport (gateway : Nat) (node : Nat) (report : PowerReport)
deriving DecidableEq

/-- Whether an event is `enumeration_ended`. -/
def SinkEvent.isEnumerationEnded : SinkEvent → Bool
  | .enumerationEnded _ => true
  | _ => false

/-- One sink call processed by the observer (src/observer.rs lines 193-350):
the resulting observer and the outputs emitted during the call, in order. -/
def stepEvent (env : Env) (s : Observer) : SinkEvent → Observer × List Output
  | .enumerationStarted g =>
    let es : EnumerationState :=
      { enumeration_gateway_id := g, gateway_identities := [], gateway_versions := [] }
    ({ s with enumeration_state := some es }, [])
  | .gatewayIdentityObserved g a =>
    match s.enumeration_state with
    | some es =>
      ({ s with enumeration_state := some (es.gateway_identity_observed g a) }, [])
    | none =>
      let s := { s with persistent_state :=
        { s.persistent_state with
          gateway_identities := s.persistent_state.gateway_identities.insert g a } }
      (s, s.write_persistent_state env)
  | .gatewayVersionObserved g v =>
    match s.enumeration_state with
    | some es =>
      let es := { es with gateway_versions := es.gateway_versions.insert g v }
      ({ s with enumeration_state := some es }, [])
    | none =>
      let s := { s with persistent_state :=
        { s.persistent_state with
          gateway_versions := s.persistent_state.gateway_versions.insert g v } }
      (s, s.write_persistent_state env)
  | .enumerationEnded _ =>
    match s.enumeration_state with
    | some es =>
      let s := { s with
        enumeration_state := none
        persistent_state := { s.persistent_state with
          gateway_identities := es.gateway_identities
          gateway_versions := es.gateway_versions } }
      (s, s.write_persistent_state env)
    | none => (s, [])
  | .gatewaySlotCounterCaptured g now =>
    ({ s with captured_slot_counters := s.captured_slot_counters.insert g now }, [])
  | .gatewaySlotCounterObserved g counter =>
    match s.captured_slot_counters.lookup g with
    | none => (s, [])
    | some time =>
      let s := { s with captured_slot_counters := s.captured_slot_counters.erase g }
      match s.slot_clocks.lookup g with
      | none =>
        match env.slotClockNew counter time with
        | some clock => ({ s with slot_clocks := s.slot_clocks.insert g clock }, [])
        | none => (s, [])
      | some clock =>
        match env.slotClockSet clock counter time with
        | some clock => ({ s with slot_clocks := s.slot_clocks.insert g clock }, [])
        | none => (s, [])
  | .packetReceived _ => (s, [])
  | .commandExecuted _ => (s, [])
  | .stringRequest _ => (s, [])
  | .stringResponse _ => (s, [])
  | .nodeTablePage g start nodes =>
    let builder := (s.node_table_builders.lookup g).getD NodeTableBuilder.empty
    let pushed := env.builderPush builder start nodes
    let s := { s with node_table_builders := s.node_table_builders.insert g pushed.1 }
    match pushed.2 with
    | some table =>
      let s := { s with persistent_state :=
        { s.persistent_state with
          gateway_node_tables := s.persistent_state.gateway_node_tables.insert g table } }
      (s, s.write_persistent_state env)
    | none => (s, [])
  | .topologyReport _ => (s, [])
  | .powerReport g n report =>
    match s.slot_clocks.lookup g with
    | none =>
      (s, [.log .error "discarding power report due to missing slot clock"])
    | some clock =>
      match env.mkPowerReportEvent g n clock report with
      | none => (s, [.log .error "discarding power report due to invalid slot counter"])
      | some e => (s, [.powerReport e])

/-- Process a list of sink calls, keeping only the final observer state. -/
def runState (env : Env) (s : Observer) : List SinkEvent → Observer
  | [] => s
  | e :: rest => runState env (stepEvent env s e).1 rest

/-- A concrete environment for witnesses and counterexamples: disk persistence
succeeds, slot clocks anchor directly, the node-table builder never completes a
table, and power-report events convert directly. -/
def envTrivial : Env :=
  { fs := .success
    slotClockNew := fun counter time => some { anchor_counter := counter, anchor_time := time }
    slotClockSet := fun _ counter time => some { anchor_counter := counter, anchor_time := time }
    builderPush := fun b _ _ => (b, none)
    mkPowerReportEvent := fun g n clock r =>
      some { gateway := g, node := n, timestamp := clock.anchor_time, power := r.power,
             energy := r.energy, voltage := r.voltage, current := r.current, flags := r.flags } }

/-! ## Source configuration and the TCP connection (src/config.rs,
src/gateway/physical/tcp.rs, src/main.rs) -/

/-- Mirrors `default_port` (src/config.rs lines 82-84): the serde default for
the `port` field of `TcpConnectionConfig`. -/
def default_port : Nat := 7160

/-- Mirrors `ConnectionMode` (src/config.rs lines 98-105); `ReadOnly` is the
`#[default]` variant. -/
inductive ConnectionMode
  | readOnly
  | readWrite
deriving DecidableEq

/-- Mirrors `TcpConnectionConfig` (src/config.rs lines 52-64). -/
structure TcpConnectionConfig where
  hostname : String
  port : Nat
  mode : ConnectionMode
  keepalive_idle : Nat
  keepalive_interval : Nat
  keepalive_count : Nat
deriving DecidableEq

/-- Deserializing a `TcpConnectionConfig` whose optional fields may be absent:
the serde attributes of src/config.rs lines 52-64 supply `default_port`,
`default_keepalive_idle` (30), `default_keepalive_interval` (10) and
`default_keepalive_count` (5) for missing fields. -/
def tcpConnectionConfigOfJson (hostname : String) (port : Option Nat)
    (mode : ConnectionMode) (idle interval count : Option Nat) : TcpConnectionConfig :=
  { hostname := hostname
    port := port.getD default_port
    mode := mode
    keepalive_idle := idle.getD 30
    keepalive_interval := interval.getD 10
    keepalive_count := count.getD 5 }

/-- Mirrors the `Source` argument group of the command line (src/main.rs lines
56-95), restricted to the fields that exist without the serialport feature. -/
structure Source where
  tcp : Option String
  reconnect_timeout : Nat
  reconnect_retry : Nat
  reconnect_delay : Nat
  port : Nat
  keepalive_idle : Nat
  keepalive_interval : Nat
  keepalive_count : Nat
deriving DecidableEq

/-- A command-line invocation that selects a TCP source and specifies nothing
else: clap fills every unspecified flag with its declared `default_value`; in
particular the `--port` default is 502 (src/main.rs lines 80-82). -/
def Source.tcpWithDefaults (destination : String) : Source :=
  { tcp := some destination
    reconnect_timeout := 0
    reconnect_retry := 0
    reconnect_delay := 5
    port := 502
    keepalive_idle := 30
    keepalive_interval := 10
    keepalive_count := 5 }

/-- Mirrors `impl From<Source> for config::SourceConfig` (src/main.rs lines
207-230) without the serialport feature: a TCP source becomes a
`TcpConnectionConfig` with the port taken verbatim from the command line and
mode forced to `ReadOnly`; with no source selected the source panics (clap
prevents that case), modelled as `none`. -/
def sourceConfigOfSource (s : Source) : Option TcpConnectionConfig :=
  match s.tcp with
  | some name =>
    some { hostname := name
           port := s.port
           mode := .readOnly
           keepalive_idle := s.keepalive_idle
           keepalive_interval := s.keepalive_interval
           keepalive_count := s.keepalive_count }
  | none => none

/-- The port passed in the socket address of `SourceConfig::open`
(src/config.rs line 22: `(config.hostname.as_str(), config.port)`). -/
def connectPort (c : TcpConnectionConfig) : Nat := c.port

/-- Mirrors `std::io::ErrorKind` as used by src/gateway/physical/tcp.rs. -/
inductive ErrorKind
  | unsupported
deriving DecidableEq

/-- Mirrors `TcpKeepaliveConfig` (src/config.rs lines 72-80); durations are
modelled as their second counts. -/
structure TcpKeepaliveConfig where
  idle : Nat
  interval : Nat
  count : Nat
deriving DecidableEq

/-- Mirrors `Connection` (src/gateway/physical/tcp.rs lines 6-11); the bytes
written to the underlying socket are collected in `socket_sent`. -/
structure Connection where
  socket_sent : List Nat
  readonly : Bool
  keepalive : TcpKeepaliveConfig
deriving DecidableEq

/-- Mirrors `Connection::connect` (src/gateway/physical/tcp.rs lines 14-28): a
fresh socket on which nothing has been sent. -/
def Connection.connect (readonly : Bool) (keepalive : TcpKeepaliveConfig) : Connection :=
  { socket_sent := [], readonly := readonly, keepalive := keepalive }

/-- Mirrors `impl Write for Connection`, method `write`
(src/gateway/physical/tcp.rs lines 40-46): in read-only mode the call returns
`ErrorKind::Unsupported` without touching the socket; otherwise the bytes go
out on the socket (the socket itself is modelled as accepting them). -/
def Connection.write (c : Connection) (buf : List Nat) : Except ErrorKind Nat × Connection :=
  if c.readonly then (.error .unsupported, c)
  else (.ok buf.length, { c with socket_sent := c.socket_sent ++ buf })

/-- Mirrors `impl Write for Connection`, method `flush`
(src/gateway/physical/tcp.rs lines 48-54): `Ok(())` in read-only mode;
otherwise the socket flush (modelled as succeeding without sending). -/
def Connection.flush (c : Connection) : Except ErrorKind Unit × Connection :=
  if c.readonly then (.ok (), c) else (.ok (), c)

/-- Mirrors the TCP arm of `SourceConfig::open` (src/config.rs lines 21-38):
`ConnectionMode::ReadOnly` opens the connection with `readonly = true`,
`ReadWrite` with `readonly = false`, passing the keepalive settings along. -/
def TcpConnectionConfig.open (c : TcpConnectionConfig) : Connection :=
  Connection.connect
    (match c.mode with | .readOnly => true | .readWrite => false)
    { idle := c.keepalive_idle, interval := c.keepalive_interval, count := c.keepalive_count }

/-- A call on the `Write` half of a connection. -/
inductive WriteOp
  | write (buf : List Nat)
  | flush
deriving DecidableEq

/-- Run a sequence of `Write` calls against a connection, keeping the
resulting connection. -/
def runWriteOps (c : Connection) : List WriteOp → Connection
  | [] => c
  | .write buf :: rest => runWriteOps (c.write buf).2 rest
  | .flush :: rest => runWriteOps (c.flush).2 rest

/-! ## Concrete fixtures used by witnesses and counterexamples -/

/-- A concrete hardware address, called `A` in the enumeration-swap scenario. -/
def addrA : LongAddress := ⟨[0xA0, 1, 2, 3, 4, 5, 6, 7]⟩

/-- A concrete hardware address, called `B` in the enumeration-swap scenario. -/
def addrB : LongAddress := ⟨[0xB0, 1, 2, 3, 4, 5, 6, 7]⟩

/-- A concrete hardware address, the updated identity of gateway 1 in the
enumeration-swap scenario. -/
def addrA2 : LongAddress := ⟨[0xA9, 1, 2, 3, 4, 5, 6, 7]⟩

/-- A concrete hardware address, called `C` in the enumeration-swap scenario. -/
def addrC : LongAddress := ⟨[0xC0, 1, 2, 3, 4, 5, 6, 7]⟩

/-- The pre-state of the enumeration-swap scenario: persistent gateway
identities `{1: A, 2: B}` and nothing else. -/
def obsPre : Observer :=
  { persistent_file := ""
    persistent_state :=
      { gateway_node_tables := []
        gateway_identities := (Map.insert [] 1 addrA).insert 2 addrB
        gateway_versions := [] }
    enumeration_state := none
    captured_slot_counters := []
    slot_clocks := []
    node_table_builders := [] }

/-- An observer with a configured persistence path, empty state, and no slot
clocks. -/
def obsFresh : Observer :=
  { persistent_file := "taptap.json"
    persistent_state := PersistentState.empty
    enumeration_state := none
    captured_slot_counters := []
    slot_clocks := []
    node_table_builders := [] }

/-- A concrete power report. -/
def powerR0 : PowerReport :=
  { slot_counter := 100, power := 7, energy := 9, voltage := 5, current := 3, flags := 0 }

/-- A concrete persistent state with an identity for gateway 1 and a version
for gateway 2 only. -/
def stMixed : PersistentState :=
  { gateway_node_tables := []
    gateway_identities := Map.insert [] 1 addrA
    gateway_versions := Map.insert [] 2 "G3.14" }

/-! ## Helper lemmas -/

/-- Looking a key up after `Map.mapWithKey` transforms the looked-up value. -/
theorem Map.lookup_mapWithKey {V W : Type} (f : Nat → V → W) (m : Map V) (g : Nat) :
    (Map.mapWithKey f m).lookup g = (m.lookup g).map (f g) := by
  induction m with
  | nil => rfl
  | cons p rest ih =>
    by_cases h : g = p.1
    · subst h
      simp [Map.mapWithKey, Map.lookup]
    · simpa [Map.mapWithKey, Map.lookup, h] using ih

/-- `Map.mapWithKey` preserves the key list. -/
theorem Map.keys_mapWithKey {V W : Type} (f : Nat → V → W) (m : Map V) :
    (Map.mapWithKey f m).keys = m.keys := by
  simp [Map.mapWithKey, Map.keys, List.map_map]

/-- While an enumeration is in progress, processing any sink call other than
`enumeration_ended` leaves the persistent gateway identities untouched and
keeps the enumeration in progress. -/
theorem step_during_enumeration (env : Env) (s : Observer) (e : SinkEvent)
    (hs : s.enumeration_state.isSome = true) (he : e.isEnumerationEnded = false) :
    (stepEvent env s e).1.persistent_state.gateway_identities
        = s.persistent_state.gateway_identities
      ∧ (stepEvent env s e).1.enumeration_state.isSome = true := by
  obtain ⟨es, hes⟩ := Option.isSome_iff_exists.mp hs
  cases e <;>
    simp [stepEvent, SinkEvent.isEnumerationEnded, hes] at he ⊢ <;>
    (repeat' split) <;>
    simp [hes]

/-- While an enumeration is in progress, processing any sink-call sequence
free of `enumeration_ended` leaves the persistent gateway identities untouched
and keeps the enumeration in progress. -/
theorem run_during_enumeration (env : Env) (evs : List SinkEvent) (s : Observer)
    (hs : s.enumeration_state.isSome = true)
    (he : evs.all (fun e => !e.isEnumerationEnded) = true) :
    (runState env s evs).persistent_state.gateway_identities
        = s.persistent_state.gateway_identities
      ∧ (runState env s evs).enumeration_state.isSome = true := by
  induction evs generalizing s with
  | nil => exact ⟨rfl, hs⟩
  | cons e rest ih =>
    simp only [List.all_cons, Bool.and_eq_true] at he
    have hstep := step_during_enumeration env s e hs (by simpa using he.1)
    have hrest := ih (stepEvent env s e).1 hstep.2 he.2
    exact ⟨hrest.1.trans hstep.1, hrest.2⟩

/-- A read-only connection is left unchanged by any sequence of `Write`
calls. -/
theorem runWriteOps_readonly (c : Connection) (h : c.readonly = true)
    (ops : List WriteOp) : runWriteOps c ops = c := by
  induction ops with
  | nil => rfl
  | cons op rest ih =>
    cases op <;> simp [runWriteOps, Connection.write, Connection.flush, h, ih]

/-! ## The claims -/

/-- C1: the claim says every mutation of `persistent_state` is followed by
exactly one emitted `infrastructure_report` before further input is consumed.
The code violates this: `Observer::write_persistent_state` prints the
infrastructure event unconditionally before attempting the disk write
(src/observer.rs lines 116-122) and prints the same event a second time after
a successful rename (lines 178-180). At the failing input — a gateway identity
observed outside enumeration by an observer with a configured persistence path,
with every file operation succeeding — two `infrastructure_report` events are
emitted for the single mutation. -/
theorem taptap_C1_double_infrastructure_report :
    countInfra (stepEvent envTrivial obsFresh (.gatewayIdentityObserved 5 addrA)).2 = 2 := by
  decide

/-- C2 counterexample: the claim expects the enumeration-swap scenario
(pre-state `{1: A, 2: B}`; events `enumeration_started(1)`,
`gateway_identity_observed(1, A2)`, `gateway_identity_observed(3, C)`,
`enumeration_ended`) to end with persistent identities `{1: A2, 3: C}`. It
does not: the identity observed for gateway 1 is discarded, because 1 is the
latched `enumeration_gateway_id` (src/observer.rs lines 359-371). -/
theorem taptap_C2_counterexample :
    (runState envTrivial obsPre
        [.enumerationStarted 1, .gatewayIdentityObserved 1 addrA2,
         .gatewayIdentityObserved 3 addrC, .enumerationEnded 1]).persistent_state.gateway_identities
      ≠ (Map.insert [] 1 addrA2).insert 3 addrC := by
  decide

/-- C2 amended: in the enumeration-swap scenario the final persistent gateway
identities equal exactly `{3: C}`: the identity observed for gateway 1 is
discarded as the transient enumeration identifier, and the entries for
gateways 1 and 2 are both gone. -/
theorem taptap_C2_enumeration_swap :
    (runState envTrivial obsPre
          [.enumerationStarted 1, .gatewayIdentityObserved 1 addrA2,
           .gatewayIdentityObserved 3 addrC, .enumerationEnded 1]).persistent_state.gateway_identities
        = Map.insert [] 3 addrC
      ∧ (runState envTrivial obsPre
          [.enumerationStarted 1, .gatewayIdentityObserved 1 addrA2,
           .gatewayIdentityObserved 3 addrC, .enumerationEnded 1]).persistent_state.gateway_identities.lookup 2
        = none
      ∧ (runState envTrivial obsPre
          [.enumerationStarted 1, .gatewayIdentityObserved 1 addrA2,
           .gatewayIdentityObserved 3 addrC, .enumerationEnded 1]).persistent_state.gateway_identities.lookup 1
        = none := by
  decide

/-- C3 counterexample: the claim says that during an enumeration, version
observations whose gateway equals the latched `enumeration_gateway_id` are
ignored. They are not: `gateway_version_observed` inserts into the shadow with
no transient-identifier check (src/observer.rs lines 216-229), so after
`enumeration_started(1)` a version observed for gateway 1 is recorded in the
shadow, and it reaches `persistent_state` at `enumeration_ended`. -/
theorem taptap_C3_counterexample :
    ((runState envTrivial obsFresh
          [.enumerationStarted 1, .gatewayVersionObserved 1 "v1"]).enumeration_state.map
        (fun es => es.gateway_versions.lookup 1))
        = some (some "v1")
      ∧ (runState envTrivial obsFresh
            [.enumerationStarted 1, .gatewayVersionObserved 1 "v1",
             .enumerationEnded 1]).persistent_state.gateway_versions.lookup 1
        = some "v1" := by
  decide

/-- C3 amended: while an enumeration is in progress, an identity observation
whose gateway equals the latched `enumeration_gateway_id` is ignored entirely
(the observer is unchanged and nothing is emitted), but a version observation
for that same gateway is not filtered: it is inserted into the enumeration
shadow, and the persistent state is left untouched at that step. -/
theorem taptap_C3_transient_id_filtering (env : Env) (s : Observer)
    (es : EnumerationState) (a : LongAddress) (v : String)
    (hs : s.enumeration_state = some es) :
    stepEvent env s (.gatewayIdentityObserved es.enumeration_gateway_id a) = (s, [])
      ∧ (stepEvent env s (.gatewayVersionObserved es.enumeration_gateway_id v)).1.enumeration_state
          = some { es with
              gateway_versions := es.gateway_versions.insert es.enumeration_gateway_id v }
      ∧ (stepEvent env s (.gatewayVersionObserved es.enumeration_gateway_id v)).1.persistent_state
          = s.persistent_state := by
  refine ⟨?_, ?_, ?_⟩
  · simp only [stepEvent, hs, EnumerationState.gateway_identity_observed, if_pos rfl]
    cases s
    simp_all
  · simp [stepEvent, hs]
  · simp [stepEvent, hs]

/-- C3 witness: the amended claim at a concrete observer whose enumeration was
latched at gateway 1. -/
theorem taptap_C3_witness :
    stepEvent envTrivial (runState envTrivial obsFresh [.enumerationStarted 1])
        (.gatewayIdentityObserved 1 addrA2)
      = (runState envTrivial obsFresh [.enumerationStarted 1], []) :=
  (taptap_C3_transient_id_filtering envTrivial
    (runState envTrivial obsFresh [.enumerationStarted 1])
    { enumeration_gateway_id := 1, gateway_identities := [], gateway_versions := [] }
    addrA2 "v1" rfl).1

/-- C4: while an enumeration is in progress, the persistent gateway-identity
map is never a mixture of pre-enumeration and mid-enumeration entries. For
every event sequence free of `enumeration_ended`, the map after
`enumeration_started` plus those events is exactly the pre-enumeration map;
and the `enumeration_ended` step replaces it with exactly the shadow map, as a
whole. -/
theorem taptap_C4_enumeration_atomicity (env : Env) (s₀ : Observer) (g : Nat)
    (evs : List SinkEvent) (he : evs.all (fun e => !e.isEnumerationEnded) = true) :
    (runState env (stepEvent env s₀ (.enumerationStarted g)).1 evs).persistent_state.gateway_identities
        = s₀.persistent_state.gateway_identities
      ∧ ∃ es,
          (runState env (stepEvent env s₀ (.enumerationStarted g)).1 evs).enumeration_state
              = some es
            ∧ ∀ g₂,
                (stepEvent env (runState env (stepEvent env s₀ (.enumerationStarted g)).1 evs)
                    (.enumerationEnded g₂)).1.persistent_state.gateway_identities
                  = es.gateway_identities := by
  have h1 : (stepEvent env s₀ (.enumerationStarted g)).1.enumeration_state.isSome = true := by
    simp [stepEvent]
  have hrun := run_during_enumeration env evs _ h1 he
  have hid : (stepEvent env s₀ (.enumerationStarted g)).1.persistent_state.gateway_identities
      = s₀.persistent_state.gateway_identities := rfl
  obtain ⟨es, hes⟩ := Option.isSome_iff_exists.mp hrun.2
  refine ⟨hrun.1.trans hid, es, hes, fun g₂ => ?_⟩
  generalize hgen : runState env (stepEvent env s₀ (.enumerationStarted g)).1 evs = s₂ at hes ⊢
  simp [stepEvent, hes]

/-- C4 witness: the atomicity theorem at a concrete pre-state and a concrete
mid-enumeration event sequence. -/
theorem taptap_C4_witness :
    ([SinkEvent.gatewayIdentityObserved 7 addrC, .gatewayVersionObserved 7 "v2",
        .gatewaySlotCounterCaptured 7 11].all (fun e => !e.isEnumerationEnded) = true)
      ∧ ((runState envTrivial (stepEvent envTrivial obsPre (.enumerationStarted 9)).1
              [SinkEvent.gatewayIdentityObserved 7 addrC, .gatewayVersionObserved 7 "v2",
               .gatewaySlotCounterCaptured 7 11]).persistent_state.gateway_identities
            = obsPre.persistent_state.gateway_identities
          ∧ ∃ es,
              (runState envTrivial (stepEvent envTrivial obsPre (.enumerationStarted 9)).1
                    [SinkEvent.gatewayIdentityObserved 7 addrC, .gatewayVersionObserved 7 "v2",
                     .gatewaySlotCounterCaptured 7 11]).enumeration_state
                  = some es
                ∧ ∀ g₂,
                    (stepEvent envTrivial
                        (runState envTrivial
                          (stepEvent envTrivial obsPre (.enumerationStarted 9)).1
                          [SinkEvent.gatewayIdentityObserved 7 addrC,
                           .gatewayVersionObserved 7 "v2",
                           .gatewaySlotCounterCaptured 7 11])
                        (.enumerationEnded g₂)).1.persistent_state.gateway_identities
                      = es.gateway_identities) :=
  ⟨by decide,
   taptap_C4_enumeration_atomicity envTrivial obsPre 9
     [SinkEvent.gatewayIdentityObserved 7 addrC, .gatewayVersionObserved 7 "v2",
      .gatewaySlotCounterCaptured 7 11] (by decide)⟩

set_option maxRecDepth 4000 in
/-- C5: encoding the frame with address `From(0x1201)`, type `0x0149` and
payload `00 FF 7C DB C2` produces exactly the conformance vector
`FF 7E 07 92 01 01 49 00 FF 7C DB C2 7E 05 85 7E 08` (preamble, escaped body
with little-endian CRC, trailer), matching the repository test
`tests::frame_encoding` (src/gateway/link.rs lines 116-134). -/
theorem taptap_C5_frame_encoding_vector :
    Frame.encode
        { address := .From 0x1201, frame_type := 0x0149,
          payload := [0x00, 0xFF, 0x7C, 0xDB, 0xC2] }
      = [0xFF, 0x7E, 0x07, 0x92, 0x01, 0x01, 0x49, 0x00, 0xFF, 0x7C, 0xDB, 0xC2,
         0x7E, 0x05, 0x85, 0x7E, 0x08] := by
  decide

/-- C6 counterexample: the claim says a `PowerReport` for a gateway with no
`SlotClock` is dropped with a *warning* log. At a concrete such input the
output contains no warning-level record: the source logs at error level
(src/observer.rs lines 330-334, `log::error!`). -/
theorem taptap_C6_counterexample :
    obsFresh.slot_clocks.lookup 1 = none
      ∧ hasWarnLog (stepEvent envTrivial obsFresh (.powerReport 1 2 powerR0)).2 = false := by
  decide

/-- C6 amended: a `PowerReport` for a gateway with no `SlotClock` is dropped
without emitting a `power_report` event and without a panic: the observer is
left entirely unchanged and the only output is one error-level log record. -/
theorem taptap_C6_power_report_without_clock (env : Env) (s : Observer) (g n : Nat)
    (r : PowerReport) (h : s.slot_clocks.lookup g = none) :
    (stepEvent env s (.powerReport g n r)).1 = s
      ∧ (stepEvent env s (.powerReport g n r)).2
          = [.log .error "discarding power report due to missing slot clock"] := by
  constructor <;> simp [stepEvent, h]

/-- C6 witness: the amended claim at a concrete observer with no slot
clocks. -/
theorem taptap_C6_witness :
    (stepEvent envTrivial obsFresh (.powerReport 1 2 powerR0)).1 = obsFresh
      ∧ (stepEvent envTrivial obsFresh (.powerReport 1 2 powerR0)).2
          = [.log .error "discarding power report due to missing slot clock"] :=
  taptap_C6_power_report_without_clock envTrivial obsFresh 1 2 powerR0 (by decide)

/-- C7: at observer construction, an empty persistence path, a missing file,
and a read or parse failure each keep the initial empty state and emit no
`infrastructure_report`; a nonempty path whose file parses as persistent-state
JSON replaces the state with the parsed contents and emits exactly one
`infrastructure_report`. -/
theorem taptap_C7_startup_restore (file : String) (fo : FileOutcome) :
    (file = "" →
        (Observer.new file fo).1.persistent_state = PersistentState.empty
          ∧ countInfra (Observer.new file fo).2 = 0)
      ∧ (fo = .absent →
          (Observer.new file fo).1.persistent_state = PersistentState.empty
            ∧ countInfra (Observer.new file fo).2 = 0)
      ∧ (fo = .unreadable →
          (Observer.new file fo).1.persistent_state = PersistentState.empty
            ∧ countInfra (Observer.new file fo).2 = 0)
      ∧ ∀ st, file ≠ "" → fo = .parsed st →
          (Observer.new file fo).1.persistent_state = st
            ∧ countInfra (Observer.new file fo).2 = 1 := by
  refine ⟨?_, ?_, ?_, ?_⟩
  · intro hf
    simp [Observer.new, Observer.read_persistent_state, hf, countInfra]
  · rintro rfl
    by_cases hf : file = "" <;>
      simp [Observer.new, Observer.read_persistent_state, hf, countInfra]
  · rintro rfl
    by_cases hf : file = "" <;>
      simp [Observer.new, Observer.read_persistent_state, hf, countInfra]
  · rintro st hf rfl
    simp [Observer.new, Observer.read_persistent_state, hf, countInfra]

/-- C7 witness: the startup theorem at a concrete parsed file and at an empty
path. -/
theorem taptap_C7_witness :
    ((Observer.new "state.json" (.parsed stMixed)).1.persistent_state = stMixed
        ∧ countInfra (Observer.new "state.json" (.parsed stMixed)).2 = 1)
      ∧ ((Observer.new "" (.parsed stMixed)).1.persistent_state = PersistentState.empty
          ∧ countInfra (Observer.new "" (.parsed stMixed)).2 = 0) :=
  ⟨(taptap_C7_startup_restore "state.json" (.parsed stMixed)).2.2.2 stMixed (by decide) rfl,
   (taptap_C7_startup_restore "" (.parsed stMixed)).1 rfl⟩

/-- C8 counterexample: the claim says a TCP source with no port specified
connects on port 7160. It does not: the command line fills the unspecified
`--port` flag with its clap default 502 (src/main.rs lines 80-82), and
`impl From<Source> for SourceConfig` passes that value through verbatim, so
the connection is opened on port 502. -/
theorem taptap_C8_counterexample :
    ¬ (sourceConfigOfSource (Source.tcpWithDefaults "bridge.local")).map connectPort
        = some 7160 := by
  decide

/-- C8 amended: a TCP source selected on the command line with no port
specified connects on port 502; the serde-level default of 7160
(`default_port`, src/config.rs lines 82-84) applies only when a
`TcpConnectionConfig` is deserialized without a `port` field. -/
theorem taptap_C8_default_ports (destination hostname : String) (mode : ConnectionMode) :
    (sourceConfigOfSource (Source.tcpWithDefaults destination)).map connectPort = some 502
      ∧ connectPort (tcpConnectionConfigOfJson hostname none mode none none none) = default_port
      ∧ default_port = 7160 :=
  ⟨rfl, rfl, rfl⟩

/-- C9: the `gateways` map of an emitted `infrastructure_report` has exactly
the keys of `persistent_state.gateway_identities`; a gateway without an
identity is omitted even when it has a recorded version; and a gateway with an
identity but no recorded version appears with the empty string as its
version. -/
theorem taptap_C9_infrastructure_report_gateways (st : PersistentState) :
    (persistentStateEvent st).gateways.keys = st.gateway_identities.keys
      ∧ (∀ g, st.gateway_identities.lookup g = none →
          (persistentStateEvent st).gateways.lookup g = none)
      ∧ (∀ g a, st.gateway_identities.lookup g = some a →
          st.gateway_versions.lookup g = none →
          (persistentStateEvent st).gateways.lookup g
            = some { address := longAddressHex a, version := "" }) := by
  refine ⟨?_, ?_, ?_⟩
  · simp only [persistentStateEvent]
    exact Map.keys_mapWithKey _ _
  · intro g hg
    simp [persistentStateEvent, Map.lookup_mapWithKey, hg]
  · intro g a hga hgv
    simp [persistentStateEvent, Map.lookup_mapWithKey, hga, hgv]

/-- C9 witness: the infrastructure-report theorem at a concrete state with an
identity for gateway 1 only and a version for gateway 2 only. -/
theorem taptap_C9_witness :
    (persistentStateEvent stMixed).gateways.keys = stMixed.gateway_identities.keys
      ∧ (persistentStateEvent stMixed).gateways.lookup 2 = none
      ∧ (persistentStateEvent stMixed).gateways.lookup 1
          = some { address := longAddressHex addrA, version := "" } :=
  ⟨(taptap_C9_infrastructure_report_gateways stMixed).1,
   (taptap_C9_infrastructure_report_gateways stMixed).2.1 2 (by decide),
   (taptap_C9_infrastructure_report_gateways stMixed).2.2 1 addrA (by decide) (by decide)⟩

/-- C10: on a read-only TCP connection every `write` returns
`ErrorKind::Unsupported` and leaves the connection (socket included)
untouched, `flush` returns `Ok(())`, no sequence of `Write` calls changes the
bytes sent on the socket, and a connection opened from a `ReadOnly`
configuration never has any byte sent on its socket. -/
theorem taptap_C10_readonly_never_transmits (c : Connection) (h : c.readonly = true) :
    (∀ buf, (c.write buf).1 = Except.error ErrorKind.unsupported ∧ (c.write buf).2 = c)
      ∧ (c.flush).1 = Except.ok ()
      ∧ (∀ ops, (runWriteOps c ops).socket_sent = c.socket_sent)
      ∧ ∀ (cfg : TcpConnectionConfig) (ops : List WriteOp),
          cfg.mode = ConnectionMode.readOnly → (runWriteOps cfg.open ops).socket_sent = [] := by
  refine ⟨?_, ?_, ?_, ?_⟩
  · intro buf
    constructor <;> simp [Connection.write, h]
  · simp [Connection.flush, h]
  · intro ops
    rw [runWriteOps_readonly c h ops]
  · intro cfg ops hm
    have hro : (cfg.open).readonly = true := by
      simp [TcpConnectionConfig.open, Connection.connect, hm]
    rw [runWriteOps_readonly _ hro]
    simp [TcpConnectionConfig.open, Connection.connect]

/-- C10 witness: the read-only theorem at a concrete read-only connection and
a concrete call sequence. -/
theorem taptap_C10_witness :
    ((Connection.connect true ⟨30, 10, 5⟩).write [1, 2]).1
        = Except.error ErrorKind.unsupported
      ∧ ((Connection.connect true ⟨30, 10, 5⟩).flush).1 = Except.ok ()
      ∧ (runWriteOps (Connection.connect true ⟨30, 10, 5⟩)
            [.write [9], .flush]).socket_sent
          = (Connection.connect true ⟨30, 10, 5⟩).socket_sent :=
  ⟨((taptap_C10_readonly_never_transmits (Connection.connect true ⟨30, 10, 5⟩)
      (by decide)).1 [1, 2]).1,
   (taptap_C10_readonly_never_transmits (Connection.connect true ⟨30, 10, 5⟩)
      (by decide)).2.1,
   (taptap_C10_readonly_never_transmits (Connection.connect true ⟨30, 10, 5⟩)
      (by decide)).2.2.1 [.write [9], .flush]⟩

end Taptap
